import Mathlib

/-!
Verification development for the categorical (distributional) DQN training
script `ch07/07_dqn_categorical.py`.

The Python source is shallowly embedded below:
* machine floats are modelled as exact rationals (and, for the softmax,
  reals), the usual idealisation of IEEE arithmetic;
* numpy arrays and torch tensors of dynamic rank are modelled either at
  value level (lists / functions on `Fin`) or at shape level
  (`List ℕ` shapes with `Option`-valued operators that return `none`
  exactly where the torch operator raises a shape error);
* each definition's doc comment names the source lines it translates.
-/

/- ------------------------------------------------------------------ -/
/- Hyper-parameter constants, lines 29-42 of the source.               -/
/- ------------------------------------------------------------------ -/

/-- Discount factor, line 29: `GAMMA = 0.99`. -/
def GAMMA : ℚ := 99 / 100

/-- Line 30: `BATCH_SIZE = 32`. -/
def BATCH_SIZE : ℕ := 32

/-- Line 31: `REPLAY_SIZE = 10000`. -/
def REPLAY_SIZE : ℕ := 10000

/-- Line 33: `SYNC_TARGET_FRAMES = 1000`. -/
def SYNC_TARGET_FRAMES : ℕ := 1000

/-- Line 34: `REPLAY_START_SIZE = 10000`. -/
def REPLAY_START_SIZE : ℕ := 10000

/-- Line 36: `EPSILON_DECAY_LAST_FRAME = 10**5`. -/
def EPSILON_DECAY_LAST_FRAME : ℕ := 10 ^ 5

/-- Line 37: `EPSILON_START = 1.0`. -/
def EPSILON_START : ℚ := 1

/-- Line 38: `EPSILON_FINAL = 0.02`. -/
def EPSILON_FINAL : ℚ := 2 / 100

/-- Line 40: `Vmax = 10`. -/
def Vmax : ℚ := 10

/-- Line 41: `Vmin = -10`. -/
def Vmin : ℚ := -10

/-- Line 42: `N_ATOMS = 51`. -/
def N_ATOMS : ℕ := 51

/- ------------------------------------------------------------------ -/
/- The support vector of `CategoricalQValues.__init__`, line 84.       -/
/- ------------------------------------------------------------------ -/

/-- `torch.arange(start, stop, step)` (end-exclusive): the sequence
`start + k * step` for `0 ≤ k < ⌈(stop - start) / step⌉`, which is the
element count torch computes.  (With the concrete arguments used at
line 84 the exact rational count and the float64 count coincide: both
round `(10 - (-10)) / 0.4` up to 50.) -/
def arange (start stop step : ℚ) : List ℚ :=
  (List.range (Int.toNat ⌈(stop - start) / step⌉)).map
    (fun k : ℕ => start + (k : ℚ) * step)

/-- The step used at line 84: `(Vmax - Vmin) / (N_ATOMS - 1)` = 2/5. -/
def supportStep : ℚ := (Vmax - Vmin) / ((N_ATOMS : ℚ) - 1)

/-- Line 84: the buffer registered by `CategoricalQValues.__init__`,
`torch.arange(Vmin, Vmax, (Vmax - Vmin) / (N_ATOMS - 1))`. -/
def supports : List ℚ := arange Vmin Vmax supportStep

/- ------------------------------------------------------------------ -/
/- Epsilon schedule, line 166 of the training loop.                    -/
/- ------------------------------------------------------------------ -/

/-- Line 166: `max(EPSILON_FINAL, EPSILON_START - frame_idx / EPSILON_DECAY_LAST_FRAME)`
(Python 3 true division). -/
def epsilonAt (frame_idx : ℕ) : ℚ :=
  max EPSILON_FINAL (EPSILON_START - (frame_idx : ℚ) / (EPSILON_DECAY_LAST_FRAME : ℚ))

/- ------------------------------------------------------------------ -/
/- Claims C3 and C9.                                                   -/
/- ------------------------------------------------------------------ -/

/-- The element count torch computes at line 84:
`⌈(10 - (-10)) / (2/5)⌉ = 50`. -/
theorem arange_count : Int.toNat ⌈(Vmax - Vmin) / supportStep⌉ = 50 := by
  have h : ⌈(Vmax - Vmin) / supportStep⌉ = 50 := by
    norm_num [supportStep, Vmax, Vmin, N_ATOMS]
  rw [h]
  rfl

/-- Normal form of the support buffer: `torch.arange(-10, 10, 0.4)` is the
50 values `-10 + k * (2/5)` for `k < 50`. -/
theorem supports_eq_map :
    supports = (List.range 50).map (fun k : ℕ => Vmin + (k : ℚ) * supportStep) := by
  unfold supports arange
  rw [arange_count]

/-- Claim C3, counterexample: the support vector built at line 84 has 50
elements, not `N_ATOMS` = 51 — `torch.arange` excludes the end point, so
`arange(-10, 10, 0.4)` stops after 50 values. -/
theorem supports_length_ne_atoms : supports.length = 50 ∧ supports.length ≠ N_ATOMS := by
  rw [supports_eq_map]
  simp [N_ATOMS]

/-- Claim C3, amended: the support vector has exactly 50 = `N_ATOMS - 1`
elements, any two consecutive elements are strictly increasing with equal
step `(Vmax - Vmin) / (N_ATOMS - 1)` = 2/5, its first element equals
`Vmin`, and its last element is strictly less than `Vmax` by exactly one
step. -/
theorem supports_amended_spec :
    supports.length = N_ATOMS - 1 ∧
    (∀ (i : ℕ) (x y : ℚ), supports.get? i = some x → supports.get? (i + 1) = some y →
      x < y ∧ y - x = supportStep) ∧
    supports.get? 0 = some Vmin ∧
    supports.getLast? = some (Vmax - supportStep) := by
  rw [supports_eq_map]
  refine ⟨by simp [N_ATOMS], fun i x y hx hy => ?_, ?_, ?_⟩
  · have hi1 : i + 1 < 50 := by
      by_contra hge
      have hnone : (List.range 50).get? (i + 1) = none :=
        List.get?_eq_none.2 (by rw [List.length_range]; omega)
      rw [List.get?_map, hnone] at hy
      exact Option.noConfusion hy
    have hi : i < 50 := by omega
    have hx' : Vmin + (i : ℚ) * supportStep = x := by
      rw [List.get?_map, List.get?_range hi] at hx
      simpa using hx
    have hy' : Vmin + ((i : ℚ) + 1) * supportStep = y := by
      rw [List.get?_map, List.get?_range hi1] at hy
      simpa using hy
    subst hx' hy'
    have hstep : supportStep = 2 / 5 := by
      norm_num [supportStep, Vmax, Vmin, N_ATOMS]
    constructor
    · rw [hstep]; linarith
    · ring
  · rw [List.get?_map, List.get?_range (by norm_num)]
    norm_num
  · rw [List.getLast?_eq_get?]
    simp only [List.length_map, List.length_range]
    rw [List.get?_map, List.get?_range (by norm_num)]
    norm_num [supportStep, Vmax, Vmin, N_ATOMS]

/-- Claim C9: the exploration rate set at line 166 equals
`max(0.02, 1 - frame_idx / 10^5)`, is non-increasing in `frame_idx`, and
never drops below 0.02. -/
theorem epsilon_schedule_spec :
    (∀ f : ℕ, epsilonAt f = max (2 / 100) (1 - (f : ℚ) / 100000)) ∧
    (∀ f g : ℕ, f ≤ g → epsilonAt g ≤ epsilonAt f) ∧
    (∀ f : ℕ, 2 / 100 ≤ epsilonAt f) := by
  refine ⟨fun f => ?_, fun f g h => ?_, fun f => le_max_left _ _⟩
  · norm_num [epsilonAt, EPSILON_FINAL, EPSILON_START, EPSILON_DECAY_LAST_FRAME]
  · have hfg' : (f : ℚ) ≤ (g : ℚ) := by exact_mod_cast h
    have hfg : (f : ℚ) / (EPSILON_DECAY_LAST_FRAME : ℚ) ≤ (g : ℚ) / (EPSILON_DECAY_LAST_FRAME : ℚ) := by
      gcongr
    exact max_le_max le_rfl (by linarith)

/-- Witness for C9 at concrete frames. -/
theorem epsilon_schedule_spec_witness :
    epsilonAt 100000 ≤ epsilonAt 1 ∧ 2 / 100 ≤ epsilonAt 200000 :=
  ⟨epsilon_schedule_spec.2.1 1 100000 (by decide), epsilon_schedule_spec.2.2 200000⟩

/- ------------------------------------------------------------------ -/
/- Transition records and the Batch Unpacker, lines 95-108.            -/
/- ------------------------------------------------------------------ -/

/-- A ptan `ExperienceFirstLast` record as consumed by `unpack_batch`:
`(state, action, reward, last_state)`, with `last_state = none` when the
episode ended on this transition. -/
structure Exp (σ : Type) where
  state : σ
  action : ℕ
  reward : ℚ
  last_state : Option σ

/-- The five aligned arrays returned by `unpack_batch` (lines 107-108),
in the order of the Python return tuple. -/
structure Unpacked (σ : Type) where
  states : List σ
  actions : List ℕ
  rewards : List ℚ
  dones : List Bool
  last_states : List σ

/-- Lines 95-108: `unpack_batch`.  The Python loop appends one entry per
record, in order, which is exactly a map over the batch; `np.array`
preserves length, order and values (the dtype casts are exact here).  A
record whose `last_state` is `None` contributes `dones = True` and its
own `state` as the placeholder next state. -/
def unpack_batch {σ : Type} (batch : List (Exp σ)) : Unpacked σ where
  states := batch.map (fun e => e.state)
  actions := batch.map (fun e => e.action)
  rewards := batch.map (fun e => e.reward)
  dones := batch.map (fun e => e.last_state.isNone)
  last_states := batch.map (fun e => e.last_state.getD e.state)

/- ------------------------------------------------------------------ -/
/- Loss computation on per-action scalar values, lines 111-132.        -/
/- ------------------------------------------------------------------ -/

/-- Line 126 as typed by its own operations:
`net(states_v).gather(1, actions_v.unsqueeze(-1)).squeeze(-1)` selects,
per transition `i`, entry `actions[i]` of row `i` of a
`[batch, n_actions]` tensor of per-action scalar values.  The index is
assumed in range (torch raises otherwise; out of range is modelled as 0). -/
def state_action_values {σ : Type} (net : σ → List ℚ) (states : List σ)
    (actions : List ℕ) : List ℚ :=
  (states.zip actions).map (fun p => (net p.1).getD p.2 0)

/-- `.max(1)[0]` of one row of a `[batch, n_actions]` tensor (line 127):
the maximum entry of the row; torch raises on an empty row, modelled 0. -/
def rowMax : List ℚ → ℚ
  | [] => 0
  | x :: xs => xs.foldl max x

/-- Line 127: `tgt_net(next_states_v).max(1)[0]`. -/
def next_state_values_raw {σ : Type} (tgt : σ → List ℚ)
    (next_states : List σ) : List ℚ :=
  next_states.map (fun s => rowMax (tgt s))

/-- Line 128: `next_state_values[done_mask] = 0.0` — zero the entries
whose done flag is set. -/
def maskDones (vals : List ℚ) (dones : List Bool) : List ℚ :=
  (vals.zip dones).map (fun p => if p.2 then 0 else p.1)

/-- Line 131: `expected_state_action_values = next_state_values * GAMMA + rewards_v`. -/
def expectedValues (next_vals rewards : List ℚ) : List ℚ :=
  (next_vals.zip rewards).map (fun p => p.1 * GAMMA + p.2)

/-- Lines 127-131 composed: the per-transition training target vector. -/
def calcTargets {σ : Type} (tgt : σ → List ℚ) (batch : List (Exp σ)) : List ℚ :=
  expectedValues
    (maskDones (next_state_values_raw tgt (unpack_batch batch).last_states)
      (unpack_batch batch).dones)
    (unpack_batch batch).rewards

/-- `nn.MSELoss()` (line 132): the mean of squared differences. -/
def mseLoss (pred target : List ℚ) : ℚ :=
  ((pred.zip target).map (fun p => (p.1 - p.2) ^ 2)).sum / (pred.length : ℚ)

/-- Lines 111-132: `calc_loss`, applied to networks producing per-action
scalar values — the shape every tensor operation in its body requires.
(The `__main__` call site instead hands it the raw 3-D categorical
network; that mis-wiring is analysed separately at shape level.) -/
def calc_loss {σ : Type} (net tgt : σ → List ℚ) (batch : List (Exp σ)) : ℚ :=
  mseLoss
    (state_action_values net (unpack_batch batch).states (unpack_batch batch).actions)
    (calcTargets tgt batch)

/-- Normal form of the target vector: one entry per input record. -/
theorem calcTargets_eq_map {σ : Type} (tgt : σ → List ℚ) (batch : List (Exp σ)) :
    calcTargets tgt batch = batch.map (fun e =>
      (if e.last_state.isNone then 0 else rowMax (tgt (e.last_state.getD e.state))) * GAMMA
        + e.reward) := by
  simp [calcTargets, expectedValues, maskDones, next_state_values_raw, unpack_batch,
    List.map_map, List.zip_map', Function.comp]

/- ------------------------------------------------------------------ -/
/- Claims C5, C4 and C8.                                               -/
/- ------------------------------------------------------------------ -/

/-- Claim C5: `unpack_batch` returns five arrays whose lengths all equal
the batch length, which preserve the input ordering at every index, and
which substitute the record's own state as the next-state placeholder for
terminal records. -/
theorem unpack_batch_spec {σ : Type} (batch : List (Exp σ)) :
    (unpack_batch batch).states.length = batch.length ∧
    (unpack_batch batch).actions.length = batch.length ∧
    (unpack_batch batch).rewards.length = batch.length ∧
    (unpack_batch batch).dones.length = batch.length ∧
    (unpack_batch batch).last_states.length = batch.length ∧
    ∀ (i : ℕ) (e : Exp σ), batch.get? i = some e →
      (unpack_batch batch).states.get? i = some e.state ∧
      (unpack_batch batch).actions.get? i = some e.action ∧
      (unpack_batch batch).rewards.get? i = some e.reward ∧
      (unpack_batch batch).dones.get? i = some e.last_state.isNone ∧
      (unpack_batch batch).last_states.get? i = some (e.last_state.getD e.state) ∧
      (e.last_state = none → (unpack_batch batch).last_states.get? i = some e.state) := by
  refine ⟨by simp [unpack_batch], by simp [unpack_batch], by simp [unpack_batch],
    by simp [unpack_batch], by simp [unpack_batch], fun i e he => ?_⟩
  have he' : batch[i]? = some e := by rw [← List.get?_eq_getElem?]; exact he
  refine ⟨?_, ?_, ?_, ?_, ?_, fun hd => ?_⟩
  · simp [unpack_batch, List.get?_map, he']
  · simp [unpack_batch, List.get?_map, he']
  · simp [unpack_batch, List.get?_map, he']
  · simp [unpack_batch, List.get?_map, he']
  · simp [unpack_batch, List.get?_map, he']
  · simp [unpack_batch, List.get?_map, he', hd]

/-- Concrete transitions used by the witnesses below. -/
def exExpLive : Exp ℕ := { state := 3, action := 0, reward := 2, last_state := some 9 }

/-- A terminal transition (`last_state = none`). -/
def exExpDone : Exp ℕ := { state := 7, action := 1, reward := 5, last_state := none }

/-- `exExpDone` with only its reward changed. -/
def exExpDone2 : Exp ℕ := { state := 7, action := 1, reward := 8, last_state := none }

/-- A two-transition batch. -/
def exBatch : List (Exp ℕ) := [exExpLive, exExpDone]

/-- `exBatch` with the reward of its terminal record changed. -/
def exBatch2 : List (Exp ℕ) := [exExpLive, exExpDone2]

/-- A per-action scalar network on state space ℕ. -/
def exNet : ℕ → List ℚ := fun s => [(s : ℚ), 0]

/-- A target network on state space ℕ. -/
def exTgtNet : ℕ → List ℚ := fun _ => [1, 2]

/-- Witness for C5 on a concrete two-record batch. -/
theorem unpack_batch_spec_witness :
    (unpack_batch exBatch).states.length = exBatch.length ∧
    (unpack_batch exBatch).last_states.get? 1 = some exExpDone.state := by
  have h := unpack_batch_spec exBatch
  exact ⟨h.1, (h.2.2.2.2.2 1 exExpDone rfl).2.2.2.2.2 rfl⟩

/-- Claim C4: for a transition whose done flag is set, the training
target built at lines 128-131 equals exactly the transition's reward —
for any target network — and hence changing only that reward changes the
target by exactly the reward difference. -/
theorem calc_targets_done_eq_reward {σ : Type} (tgt tgt' : σ → List ℚ)
    (b b' : List (Exp σ)) (i : ℕ) (e e' : Exp σ)
    (hb : b.get? i = some e) (hb' : b'.get? i = some e')
    (hd : e.last_state = none) (hd' : e'.last_state = none) :
    (calcTargets tgt b).get? i = some e.reward ∧
    (calcTargets tgt' b').get? i = some e'.reward ∧
    (calcTargets tgt' b').getD i 0 - (calcTargets tgt b).getD i 0
      = e'.reward - e.reward := by
  have h1 : (calcTargets tgt b).get? i = some e.reward := by
    rw [calcTargets_eq_map, List.get?_map, hb]
    simp [hd]
  have h2 : (calcTargets tgt' b').get? i = some e'.reward := by
    rw [calcTargets_eq_map, List.get?_map, hb']
    simp [hd']
  refine ⟨h1, h2, ?_⟩
  rw [List.getD_eq_get?, List.getD_eq_get?, h1, h2]
  simp

/-- Witness for C4: in `exBatch` the terminal record's target is its
reward 5; raising that reward to 8 moves the target by exactly 3. -/
theorem calc_targets_done_eq_reward_witness :
    (calcTargets exTgtNet exBatch).get? 1 = some exExpDone.reward ∧
    (calcTargets exTgtNet exBatch2).get? 1 = some exExpDone2.reward ∧
    (calcTargets exTgtNet exBatch2).getD 1 0 - (calcTargets exTgtNet exBatch).getD 1 0
      = exExpDone2.reward - exExpDone.reward :=
  calc_targets_done_eq_reward exTgtNet exTgtNet exBatch exBatch2 1 exExpDone exExpDone2
    rfl rfl rfl rfl

/-- Claim C8: `calc_loss` is a pure function of the batch and the two
networks' outputs — two applications to identical inputs return the
identical scalar loss. -/
theorem calc_loss_deterministic {σ : Type} (net net' tgt tgt' : σ → List ℚ)
    (b b' : List (Exp σ)) (hn : net = net') (ht : tgt = tgt') (hb : b = b') :
    calc_loss net tgt b = calc_loss net' tgt' b' := by
  rw [hn, ht, hb]

/-- Witness for C8 on a concrete batch and concrete networks. -/
theorem calc_loss_deterministic_witness :
    calc_loss exNet exTgtNet exBatch = calc_loss exNet exTgtNet exBatch :=
  calc_loss_deterministic exNet exNet exTgtNet exTgtNet exBatch exBatch rfl rfl rfl

/- ------------------------------------------------------------------ -/
/- Shape-level model of the networks, lines 45-92 and 126-127.         -/
/- ------------------------------------------------------------------ -/

/-- Output length of `nn.Conv2d(kernel_size = k, stride = s, padding = 0)`
along one spatial dimension: `(n - k) / s + 1` (floor division). -/
def conv2dOutDim (n k s : ℕ) : ℕ := (n - k) / s + 1

/-- Shape semantics of one `nn.Conv2d(in_c, out_c, k, stride = s)` layer on a
4-D input `[b, c, h, w]`: torch requires the channel count to match and
each spatial extent to be at least the kernel size, else it raises. -/
def conv2dShape (in_c out_c k s : ℕ) : List ℕ → Option (List ℕ)
  | [b, c, h, w] =>
    if c = in_c ∧ k ≤ h ∧ k ≤ w then
      some [b, out_c, conv2dOutDim h k s, conv2dOutDim w k s]
    else none
  | _ => none

/-- Lines 48-55: the `self.conv` stack — channels `in_c → 32 → 64 → 64`,
kernels 8/4/3, strides 4/2/1 (the interleaved ReLU layers preserve
shape). -/
def convStackShape (in_c : ℕ) (x : List ℕ) : Option (List ℕ) :=
  (conv2dShape in_c 32 8 4 x).bind (fun o1 =>
    (conv2dShape 32 64 4 2 o1).bind (fun o2 =>
      conv2dShape 64 64 3 1 o2))

/-- Lines 65-67: `_get_conv_out` runs a dummy zero tensor of shape
`[1, *input_shape]` through the conv stack and returns
`int(np.prod(o.size()))`, the flattened feature count. -/
def getConvOut (input_shape : ℕ × ℕ × ℕ) : Option ℕ :=
  (convStackShape input_shape.1
    [1, input_shape.1, input_shape.2.1, input_shape.2.2]).map List.prod

/-- Line 72: `.view(batch_size, -1)` on the 4-D conv output. -/
def flattenShape : List ℕ → Option (List ℕ)
  | [b, c, h, w] => some [b, c * h * w]
  | _ => none

/-- Shape semantics of `nn.Linear(in_f, out_f)` on a 2-D input: the last
dimension must equal `in_f`. -/
def linearShape (in_f out_f : ℕ) : List ℕ → Option (List ℕ)
  | [b, f] => if f = in_f then some [b, out_f] else none
  | _ => none

/-- Line 74: `.view(batch_size, -1, N_ATOMS)` — the inferred middle
dimension requires the flat feature count to be divisible by `N_ATOMS`. -/
def view3Shape (nAtoms : ℕ) : List ℕ → Option (List ℕ)
  | [b, f] => if 0 < nAtoms ∧ nAtoms ∣ f then some [b, f / nAtoms, nAtoms] else none
  | _ => none

/-- Lines 69-74: shape of `CategoricalDQN.forward` for a module built on
`input_shape` (which fixes `fc`'s input width via `_get_conv_out`) and
applied to a batch `x`. -/
def cdqnForwardShape (input_shape : ℕ × ℕ × ℕ) (n_actions : ℕ)
    (x : List ℕ) : Option (List ℕ) :=
  (getConvOut input_shape).bind (fun conv_out_size =>
    (convStackShape input_shape.1 x).bind (fun c_out =>
      (flattenShape c_out).bind (fun fl =>
        (linearShape conv_out_size 512 fl).bind (fun f1 =>
          (linearShape 512 (n_actions * N_ATOMS) f1).bind (fun f2 =>
            view3Shape N_ATOMS f2)))))

/-- The conv stack succeeds on any input with spatial extents ≥ 36 (the
smallest extents on which all three kernels fit). -/
theorem convStackShape_eval (b c h w : ℕ) (hh : 36 ≤ h) (hw : 36 ≤ w) :
    convStackShape c [b, c, h, w] =
      some [b, 64, conv2dOutDim (conv2dOutDim (conv2dOutDim h 8 4) 4 2) 3 1,
        conv2dOutDim (conv2dOutDim (conv2dOutDim w 8 4) 4 2) 3 1] := by
  have h1h : 8 ≤ h := by omega
  have h1w : 8 ≤ w := by omega
  have h2h : 4 ≤ conv2dOutDim h 8 4 := by unfold conv2dOutDim; omega
  have h2w : 4 ≤ conv2dOutDim w 8 4 := by unfold conv2dOutDim; omega
  have h3h : 3 ≤ conv2dOutDim (conv2dOutDim h 8 4) 4 2 := by unfold conv2dOutDim; omega
  have h3w : 3 ≤ conv2dOutDim (conv2dOutDim w 8 4) 4 2 := by unfold conv2dOutDim; omega
  simp [convStackShape, conv2dShape, h1h, h1w, h2h, h2w, h3h, h3w]

/-- Claim C6: for any construction-time `input_shape = (c, h, w)` on which
the convolution stack is defined (spatial extents at least 36), the
forward pass on a batch of that shape returns shape
`[batch, n_actions, N_ATOMS]` — the `fc` input width computed at
construction by the dummy forward pass matches the flattened conv output
for every such input, for arbitrary spatial dimensions. -/
theorem cdqn_forward_shape_spec (c h w n_actions batch : ℕ)
    (hh : 36 ≤ h) (hw : 36 ≤ w) :
    cdqnForwardShape (c, h, w) n_actions [batch, c, h, w]
      = some [batch, n_actions, N_ATOMS] := by
  have hc := convStackShape_eval 1 c h w hh hw
  have hb := convStackShape_eval batch c h w hh hw
  have hdiv : n_actions * N_ATOMS / N_ATOMS = n_actions := by
    unfold N_ATOMS; omega
  unfold cdqnForwardShape getConvOut
  dsimp only
  rw [hc, hb]
  simp [flattenShape, linearShape, view3Shape, List.prod_cons, List.prod_nil,
    mul_assoc, dvd_mul_left, hdiv, N_ATOMS]

/-- Witness for C6 at the end-to-end scenario of the spec:
`input_shape = (4, 84, 84)`, six actions, batch of 8. -/
theorem cdqn_forward_shape_spec_witness :
    (36 ≤ 84 ∧ 36 ≤ 84) ∧
    cdqnForwardShape (4, 84, 84) 6 [8, 4, 84, 84] = some [8, 6, N_ATOMS] :=
  ⟨⟨by decide, by decide⟩, cdqn_forward_shape_spec 4 84 84 6 8 (by decide) (by decide)⟩

/- ------------------------------------------------------------------ -/
/- Claims C1 and C2: what `calc_loss` is actually wired to at line 193. -/
/- ------------------------------------------------------------------ -/

/-- Shape of `CategoricalDQN.forward` output (line 74): one row of
`N_ATOMS` raw atom scores per action.  At line 193 the training loop
passes this network — `net`, not the `CategoricalQValues` wrapper
`qvals_net` of line 147 — as the online network of `calc_loss`, and
`tgt_net.target_model` (a copy of the same class) as the target
network. -/
def catDQNOutShape (batch n_actions : ℕ) : List ℕ := [batch, n_actions, N_ATOMS]

/-- Shape of `CategoricalQValues.forward` output (lines 87-92): one
scalar expected value per action. -/
def catQValuesOutShape (batch n_actions : ℕ) : List ℕ := [batch, n_actions]

/-- `unsqueeze(-1)` appends a trailing dimension of size 1 (line 126). -/
def unsqueezeLastShape (s : List ℕ) : List ℕ := s ++ [1]

/-- `squeeze(-1)` drops a trailing dimension of size 1 (line 126). -/
def squeezeLastShape (s : List ℕ) : List ℕ :=
  if s.getLast? = some 1 then s.dropLast else s

/-- Shape semantics of `input.gather(dim, index)` (line 126): torch
requires the index tensor to have exactly as many dimensions as the
input tensor; the result has the index's shape. -/
def gatherShape (input : List ℕ) (dim : ℕ) (index : List ℕ) : Option (List ℕ) :=
  if input.length = index.length ∧ dim < input.length then some index else none

/-- Shape semantics of `t.max(dim)[0]` (line 127, keepdim false): the
`dim`-th dimension is removed. -/
def maxDimShape (input : List ℕ) (dim : ℕ) : Option (List ℕ) :=
  if dim < input.length then some (input.eraseIdx dim) else none

/-- Claim C1 fails on the code: at line 193 `calc_loss` receives the raw
`CategoricalDQN`, whose output on a Pong batch (`n_actions = 6`) is 3-D
`[32, 6, N_ATOMS]`, so the gather of line 126 applies a 2-D index
`[32, 1]` to a 3-D tensor and raises — the per-transition prediction is
never the Expectation Reducer's scalar `[i, actions[i]]` entry.  Had the
`CategoricalQValues` wrapper been passed, the same gather-and-squeeze
would yield the claimed `[32]` vector of selected expected values. -/
theorem calc_loss_predicted_not_expectation :
    cdqnForwardShape (4, 84, 84) 6 [BATCH_SIZE, 4, 84, 84]
      = some (catDQNOutShape BATCH_SIZE 6) ∧
    gatherShape (catDQNOutShape BATCH_SIZE 6) 1 (unsqueezeLastShape [BATCH_SIZE]) = none ∧
    (gatherShape (catQValuesOutShape BATCH_SIZE 6) 1
      (unsqueezeLastShape [BATCH_SIZE])).map squeezeLastShape = some [BATCH_SIZE] := by
  decide

/-- Claim C2 fails on the code: `tgt_net.target_model` at line 193 is a
raw `CategoricalDQN` copy, so `tgt_net(next_states).max(1)[0]` at line
127 reduces the 3-D `[32, 6, N_ATOMS]` score tensor over actions into a
`[32, N_ATOMS]` tensor of per-atom maxima of raw scores — not the `[32]`
vector of maxima over the Expectation Reducer's scalar expected values
that the claim describes (which the `CategoricalQValues` shape would
give). -/
theorem calc_loss_next_values_not_expectation_max :
    cdqnForwardShape (4, 84, 84) 6 [BATCH_SIZE, 4, 84, 84]
      = some (catDQNOutShape BATCH_SIZE 6) ∧
    maxDimShape (catDQNOutShape BATCH_SIZE 6) 1 = some [BATCH_SIZE, N_ATOMS] ∧
    maxDimShape (catQValuesOutShape BATCH_SIZE 6) 1 = some [BATCH_SIZE] ∧
    [BATCH_SIZE, N_ATOMS] ≠ [BATCH_SIZE] := by
  decide

/- ------------------------------------------------------------------ -/
/- Claim C7: the normalization inside CategoricalQValues.forward.      -/
/- ------------------------------------------------------------------ -/

/-- One row of `nn.Softmax()` (real-number semantics): each entry is its
exponential divided by the row's sum of exponentials. -/
noncomputable def softmaxRow {n : ℕ} (x : Fin n → ℝ) : Fin n → ℝ :=
  fun i => Real.exp (x i) / ∑ j, Real.exp (x j)

/-- Lines 87-89 of `CategoricalQValues.forward`:
`self.softmax(cat_out.view(-1, N_ATOMS)).view(cat_out.size())`.  The
`view(-1, N_ATOMS)` flattens the `[B, A, N_ATOMS]` score tensor into one
row per `(batch, action)` pair, `nn.Softmax()` normalizes each such row
along its atom dimension, and the final `view` restores the shape — so
the probabilities at slice `(b, a)` are the softmax of that slice's raw
atom scores. -/
noncomputable def catQValuesProbs {B A : ℕ}
    (cat_out : Fin B → Fin A → Fin N_ATOMS → ℝ) :
    Fin B → Fin A → Fin N_ATOMS → ℝ :=
  fun b a => softmaxRow (cat_out b a)

/-- Claim C7: for every `(batch, action)` slice, the normalized atom
probabilities computed inside the Expectation Reducer's forward pass are
non-negative and sum to exactly 1 (real-number semantics; the claim's
numerical tolerance is the float shadow of this exact fact). -/
theorem softmax_probs_nonneg_sum_one {B A : ℕ}
    (cat_out : Fin B → Fin A → Fin N_ATOMS → ℝ) (b : Fin B) (a : Fin A) :
    (∀ k, 0 ≤ catQValuesProbs cat_out b a k) ∧
    (∑ k, catQValuesProbs cat_out b a k) = 1 := by
  have hpos : 0 < ∑ j, Real.exp (cat_out b a j) :=
    Finset.sum_pos (fun j _ => Real.exp_pos _) ⟨⟨0, by decide⟩, Finset.mem_univ _⟩
  unfold catQValuesProbs softmaxRow
  refine ⟨fun k => div_nonneg (Real.exp_pos _).le hpos.le, ?_⟩
  rw [← Finset.sum_div]
  exact div_self (ne_of_gt hpos)

/- ------------------------------------------------------------------ -/
/- Claim C10: the replay-warmup gate of the training loop.             -/
/- ------------------------------------------------------------------ -/

/-- The mutable state threaded through one iteration of the `while True`
loop (lines 162-198): the frame counter, the replay buffer's contents,
the epsilon written into the action selector, and the online and target
networks' parameters. -/
structure LoopState (θ τ : Type) where
  frame_idx : ℕ
  buffer : List τ
  epsilon : ℚ
  net : θ
  tgt : θ

/-- Lines 163-198: one iteration of the training loop.  The external
collaborators are abstract parameters: `populate n` is
`buffer.populate(n)` (the ptan replay buffer adding experience),
`sample` is `buffer.sample(BATCH_SIZE)`, `lossFn` is `calc_loss` on the
sampled batch and the two networks, and `optStep` is the
`loss.backward(); optimizer.step()` parameter update.  `solved` tells
whether the metrics block hit the reward bound and breaks (line 186,
before the gate).  The iteration increments `frame_idx`, populates the
buffer, sets epsilon (line 166, the `epsilonAt` schedule), and only past
the `len(buffer) < REPLAY_START_SIZE` gate of line 188 computes a loss,
updates the online network, and — on every `SYNC_TARGET_FRAMES`-th
frame — overwrites the target network wholesale (`tgt_net.sync()`,
line 197).  Results: the new state, the loss computed this iteration (if
any), and whether the loop continues. -/
def trainIter {θ τ β : Type} (populate : ℕ → List τ → List τ)
    (sample : List τ → β) (lossFn : β → θ → θ → ℚ) (optStep : θ → ℚ → θ)
    (solved : Bool) (s : LoopState θ τ) : LoopState θ τ × Option ℚ × Bool :=
  let fi := s.frame_idx + 1
  let buf := populate 1 s.buffer
  let s1 : LoopState θ τ :=
    { s with frame_idx := fi, buffer := buf, epsilon := epsilonAt fi }
  if solved then (s1, none, false)
  else if buf.length < REPLAY_START_SIZE then (s1, none, true)
  else
    let loss := lossFn (sample buf) s1.net s1.tgt
    let s2 : LoopState θ τ := { s1 with net := optStep s1.net loss }
    let s3 : LoopState θ τ :=
      if fi % SYNC_TARGET_FRAMES = 0 then { s2 with tgt := s2.net } else s2
    (s3, some loss, true)

/-- Claim C10: on any iteration on which the freshly populated buffer
still holds fewer than `REPLAY_START_SIZE` transitions, the iteration
ends right after experience collection and metrics: no loss is computed,
the online network is untouched (for every possible optimizer), the
target network is untouched (no sync, whatever the frame index), and
only the frame counter, buffer and epsilon advance. -/
theorem train_iter_gate_no_update {θ τ β : Type}
    (populate : ℕ → List τ → List τ) (sample : List τ → β)
    (lossFn : β → θ → θ → ℚ) (optStep : θ → ℚ → θ) (solved : Bool)
    (s : LoopState θ τ)
    (hgate : (populate 1 s.buffer).length < REPLAY_START_SIZE) :
    (trainIter populate sample lossFn optStep solved s).1.net = s.net ∧
    (trainIter populate sample lossFn optStep solved s).1.tgt = s.tgt ∧
    (trainIter populate sample lossFn optStep solved s).2.1 = none ∧
    (trainIter populate sample lossFn optStep solved s).1.buffer = populate 1 s.buffer ∧
    (trainIter populate sample lossFn optStep solved s).1.frame_idx = s.frame_idx + 1 ∧
    (trainIter populate sample lossFn optStep solved s).1.epsilon = epsilonAt (s.frame_idx + 1) := by
  unfold trainIter
  cases solved <;> simp [hgate]

/-- Replay-buffer stand-in for the C10 witness: prepend one experience. -/
def exPopulate : ℕ → List Unit → List Unit := fun _ buf => () :: buf

/-- Batch sampler stand-in for the C10 witness. -/
def exSample : List Unit → Unit := fun _ => ()

/-- Loss stand-in for the C10 witness. -/
def exLossFn : Unit → ℚ → ℚ → ℚ := fun _ n t => n + t

/-- Optimizer stand-in for the C10 witness. -/
def exOptStep : ℚ → ℚ → ℚ := fun p l => p + l

/-- Initial loop state for the C10 witness: empty buffer. -/
def exLoopState : LoopState ℚ Unit :=
  { frame_idx := 0, buffer := [], epsilon := 1, net := 0, tgt := 0 }

/-- Witness for C10: from an empty buffer (1 < 10000 after populating),
the iteration changes neither network and reports no loss. -/
theorem train_iter_gate_no_update_witness :
    (trainIter exPopulate exSample exLossFn exOptStep false exLoopState).1.net = exLoopState.net ∧
    (trainIter exPopulate exSample exLossFn exOptStep false exLoopState).1.tgt = exLoopState.tgt ∧
    (trainIter exPopulate exSample exLossFn exOptStep false exLoopState).2.1 = none ∧
    (trainIter exPopulate exSample exLossFn exOptStep false exLoopState).1.buffer
      = exPopulate 1 exLoopState.buffer ∧
    (trainIter exPopulate exSample exLossFn exOptStep false exLoopState).1.frame_idx
      = exLoopState.frame_idx + 1 ∧
    (trainIter exPopulate exSample exLossFn exOptStep false exLoopState).1.epsilon
      = epsilonAt (exLoopState.frame_idx + 1) :=
  train_iter_gate_no_update exPopulate exSample exLossFn exOptStep false exLoopState
    (by decide)
